import Mathlib

/-!
Verification development for the sequential prompt-chaining bank-support
program (`prompt-chain.py`).  The program has three components:

* `get_prompt_text` — pure prompt builder: stage number plus accumulated
  context dictionary to prompt text (fixed templates with substitution);
* `gemini_llm_call` — wrapper around one outbound generate-content call,
  converting every failure into a sentinel string;
* `run_prompt_chain` — drives five sequential build-then-call round trips,
  threading each stage output into the context for later prompts.

The embedding below follows the Python source line by line.  The context
dictionary becomes an insertion-ordered association list (Python dict
semantics), the external service becomes an explicit `LLMWorld` value
(whether the module-level client was constructed, and the outcome of each
outbound call, indexed by the number of calls already made), and the
possibility of a `KeyError` on a missing dictionary key becomes an
`Option` result.
-/

namespace PromptChain

/-- Python `dict[str, str]` in insertion order: an association list whose
keys are unique by construction of `ctxInsert`. -/
abbrev Ctx := List (String × String)

/-- Dictionary lookup `context[key]`: the value at `key`, or `none`
(modelling the `KeyError`) when the key is absent. -/
def ctxLookup : Ctx → String → Option String
  | [], _ => none
  | (k, v) :: rest, key => if k = key then some v else ctxLookup rest key

/-- Dictionary assignment `context[key] = val`: replaces the value in place
when the key is present, otherwise appends the pair at the end, exactly as
a Python dict preserves insertion order. -/
def ctxInsert : Ctx → String → String → Ctx
  | [], key, val => [(key, val)]
  | (k, v) :: rest, key, val =>
      if k = key then (key, val) :: rest else (k, v) :: ctxInsert rest key val

/-- The module-level constant `AVAILABLE_CATEGORIES`:
`", ".join([...eight category names...])`. -/
def AVAILABLE_CATEGORIES : String :=
  String.intercalate ", "
    ["Account Opening", "Billing Issue", "Account Access",
     "Transaction Inquiry", "Card Services", "Account Statement",
     "Loan Inquiry", "General Information"]

/-- Literal text of the stage-1 template before `{context['customer_query']}`. -/
def stage1_seg0 : String := "\n        System Role: You are an expert customer service analyst. Your task is to interpret a raw customer query and determine the core intent and sentiment.\n        \n        Task: Analyze the following customer query and provide a **single, brief, and objective summary** of the customer\x27s intent and purpose. Do not attempt to categorize or respond yet.\n        \n        Customer Query:\n        "

/-- Literal text of the stage-1 template after the placeholder. -/
def stage1_seg1 : String := "\n        \n        Output Format Example: The customer wants to know why a charge on their debit card statement is unfamiliar and needs it resolved.\n        "

/-- Literal text of the stage-2 template before `{AVAILABLE_CATEGORIES}`. -/
def stage2_seg0 : String := "\n        System Role: You are a banking system classifier. Your task is to match a summarized customer intent to all relevant service categories.\n        \n        Available Categories: "

/-- Literal text of the stage-2 template between `{AVAILABLE_CATEGORIES}` and
`{context['stage_1_output']}`. -/
def stage2_seg1 : String := "\n        \n        Task: Given the customer\x27s summarized intent, identify **all possible categories** that could potentially apply. Output the categories as a comma-separated list.\n        \n        Summarized Intent:\n        "

/-- Literal text of the stage-2 template after the last placeholder. -/
def stage2_seg2 : String := "\n        \n        Output Format Example: Transaction Inquiry, Card Services, Billing Issue\n        "

/-- Literal text of the stage-3 template before `{context['stage_1_output']}`. -/
def stage3_seg0 : String := "\n        System Role: You are a senior banking service manager. Your task is to review potential categories and select the absolute best fit.\n        \n        Task: From the list of possible categories provided below, select the **single most appropriate category** that accurately and specifically represents the customer\x27s summarized intent. Output **only the name of the category**.\n        \n        Summarized Intent:\n        "

/-- Literal text of the stage-3 template between its two placeholders. -/
def stage3_seg1 : String := "\n        \n        Possible Categories:\n        "

/-- Literal text of the stage-3 template after the last placeholder. -/
def stage3_seg2 : String := "\n        \n        Output Format Example: Transaction Inquiry\n        "

/-- Literal text of the stage-4 template before `{context['stage_3_output']}`. -/
def stage4_seg0 : String := "\n        System Role: You are a customer information extractor. Your task is to identify and list any missing or necessary details required to resolve the customer’s query based on the final category chosen.\n        \n        Task: Based on the **Final Category** and the **Summarized Intent**, identify up to three pieces of **critical, missing information** needed to proceed (e.g., Account number, date, amount, last 4 digits of card, etc.). If no information is needed, state \"None\". Output the required details as a comma-separated list.\n        \n        Final Category:\n        "

/-- Literal text of the stage-4 template between its two placeholders. -/
def stage4_seg1 : String := "\n        \n        Summarized Intent (Original Source):\n        "

/-- Literal text of the stage-4 template after the last placeholder. -/
def stage4_seg2 : String := "\n        \n        Output Format Example: Transaction Date, Transaction Amount, Card Type (Debit or Credit)\n        "

/-- Literal text of the stage-5 template before `{context['stage_3_output']}`. -/
def stage5_seg0 : String := "\n        System Role: You are a professional, helpful customer service agent. Your task is to draft a brief and courteous response.\n        \n        Task: Draft a **short, professional, and empathetic response** to the customer. Acknowledge their issue based on the **Final Category** and **Summarized Intent**, and politely ask them to provide the **Additional Details Needed** to help them immediately. The response should be 1-3 sentences long.\n        \n        Final Category:\n        "

/-- Literal text of the stage-5 template between its first two placeholders. -/
def stage5_seg1 : String := "\n        \n        Summarized Intent:\n        "

/-- Literal text of the stage-5 template between its last two placeholders. -/
def stage5_seg2 : String := "\n        \n        Additional Details Needed:\n        "

/-- Literal text of the stage-5 template after the last placeholder. -/
def stage5_seg3 : String := "\n        \n        Output Format Example: Thank you for reaching out regarding your transaction inquiry. We understand this is important. To help us locate the charge and resolve this, could you please provide the Transaction Date, Transaction Amount, and whether it was a Debit or Credit card?\n        "

/-- The literal returned by `get_prompt_text` when `stage` is not 1–5. -/
def invalidStageMsg : String := "Error: Invalid stage number."

/-- The prompt builder `get_prompt_text(stage, context)`.  Each branch
rebuilds the Python f-string: fixed segments with the context values (and
`AVAILABLE_CATEGORIES` in stage 2) substituted, lookups taken in the
textual order of the placeholders.  A missing key gives `none` (the
Python `KeyError`); an out-of-range stage gives the fixed error literal. -/
def get_prompt_text (stage : Int) (context : Ctx) : Option String :=
  if stage = 1 then
    (ctxLookup context "customer_query").map fun cq =>
      stage1_seg0 ++ cq ++ stage1_seg1
  else if stage = 2 then
    (ctxLookup context "stage_1_output").map fun s1 =>
      stage2_seg0 ++ AVAILABLE_CATEGORIES ++ stage2_seg1 ++ s1 ++ stage2_seg2
  else if stage = 3 then
    (ctxLookup context "stage_1_output").bind fun s1 =>
      (ctxLookup context "stage_2_output").map fun s2 =>
        stage3_seg0 ++ s1 ++ stage3_seg1 ++ s2 ++ stage3_seg2
  else if stage = 4 then
    (ctxLookup context "stage_3_output").bind fun s3 =>
      (ctxLookup context "stage_1_output").map fun s1 =>
        stage4_seg0 ++ s3 ++ stage4_seg1 ++ s1 ++ stage4_seg2
  else if stage = 5 then
    (ctxLookup context "stage_3_output").bind fun s3 =>
      (ctxLookup context "stage_1_output").bind fun s1 =>
        (ctxLookup context "stage_4_output").map fun s4 =>
          stage5_seg0 ++ s3 ++ stage5_seg1 ++ s1 ++ stage5_seg2 ++ s4 ++ stage5_seg3
  else some invalidStageMsg

/-- Outcome of one `client.models.generate_content` call: either a response
whose `.text` field is the given optional string, or a raised exception with
the given message. -/
inductive CallOutcome where
  | success (text : Option String)
  | exception (msg : String)

/-- A model of the external world seen by `gemini_llm_call`: whether the
module-level `client = genai.Client()` construction succeeded (`clientSet`,
false means `client is None`), and the outcome `respond n p` of the outbound
call when `n` outbound calls were already made in this process and the
prompt is `p`. -/
structure LLMWorld where
  clientSet : Bool
  respond : Nat → String → CallOutcome

/-- Python `str.strip()`: the string with leading and trailing whitespace
characters removed (written over the character list so that it computes by
reduction). -/
def pyStrip (s : String) : String :=
  String.mk (((s.data.dropWhile Char.isWhitespace).reverse.dropWhile
    Char.isWhitespace).reverse)

/-- Sentinel returned when the module-level client handle is `None`. -/
def clientNotSetMsg : String := "ERROR: Gemini client not initialized. Check API key."

/-- Sentinel returned when the call succeeds but yields empty text. -/
def emptyResponseMsg : String := "ERROR in LLM call: Received empty or invalid response text."

/-- The fixed head of the string built from a caught exception. -/
def llmExceptionHead : String := "ERROR in LLM call: "

/-- The call executor `gemini_llm_call(prompt_text)`.  `callsMade` counts the
outbound calls already performed; the returned number is the updated count,
so that a result with an unchanged count witnesses that no outbound call
was made.  The branches mirror the source: `client is None` short-circuit,
then the truthiness test `response.text and response.text.strip()`, the
trimmed text on success, the empty-response sentinel otherwise, and the
caught-exception string `f"ERROR in LLM call: {e}"`. -/
def gemini_llm_call (w : LLMWorld) (callsMade : Nat) (prompt_text : String) :
    String × Nat :=
  if w.clientSet = false then
    (clientNotSetMsg, callsMade)
  else
    match w.respond callsMade prompt_text with
    | CallOutcome.success text =>
        match text with
        | some t =>
            if t ≠ "" ∧ pyStrip t ≠ "" then (pyStrip t, callsMade + 1)
            else (emptyResponseMsg, callsMade + 1)
        | none => (emptyResponseMsg, callsMade + 1)
    | CallOutcome.exception msg => (llmExceptionHead ++ msg, callsMade + 1)

/-- Observable trace of one chain run: the five stage results in order (the
list the source returns), the five prompts passed to the executor, the
context as it stands after each of the five stages, and the final outbound
call count. -/
structure ChainTrace where
  results : List String
  prompts : List String
  ctxs : List Ctx
  calls : Nat

/-- The orchestrator `run_prompt_chain(customer_query)`, instrumented to
record the prompts and the per-stage contexts alongside the results.  The
five hand-unrolled steps follow the source exactly: build the prompt,
call the executor, append the result, write `stage_i_output` into the
context — except after stage 5, where the source only appends the result
and writes nothing into the context.  `none` would signal a `KeyError`
while building a prompt (it never occurs, as proved below). -/
def run_prompt_chainT (w : LLMWorld) (customer_query : String) :
    Option ChainTrace :=
  let chain_context : Ctx := [("customer_query", customer_query)]
  (get_prompt_text 1 chain_context).bind fun prompt_1 =>
  let out1 := gemini_llm_call w 0 prompt_1
  let ctx1 := ctxInsert chain_context "stage_1_output" out1.fst
  (get_prompt_text 2 ctx1).bind fun prompt_2 =>
  let out2 := gemini_llm_call w out1.snd prompt_2
  let ctx2 := ctxInsert ctx1 "stage_2_output" out2.fst
  (get_prompt_text 3 ctx2).bind fun prompt_3 =>
  let out3 := gemini_llm_call w out2.snd prompt_3
  let ctx3 := ctxInsert ctx2 "stage_3_output" out3.fst
  (get_prompt_text 4 ctx3).bind fun prompt_4 =>
  let out4 := gemini_llm_call w out3.snd prompt_4
  let ctx4 := ctxInsert ctx3 "stage_4_output" out4.fst
  (get_prompt_text 5 ctx4).bind fun prompt_5 =>
  let out5 := gemini_llm_call w out4.snd prompt_5
  some { results := [out1.fst, out2.fst, out3.fst, out4.fst, out5.fst]
         prompts := [prompt_1, prompt_2, prompt_3, prompt_4, prompt_5]
         ctxs := [ctx1, ctx2, ctx3, ctx4, ctx4]
         calls := out5.snd }

/-- The orchestrator's observable return value: the ordered list of the five
stage results, as in the source's `return results`. -/
def run_prompt_chain (w : LLMWorld) (customer_query : String) :
    Option (List String) :=
  (run_prompt_chainT w customer_query).map fun t => t.results

/-! Unfolded form of the chain run.  The following definitions spell out,
stage by stage, the prompt built, the executor call, and the context after
each stage; `run_prompt_chainT_eq` below proves (definitionally) that they
are exactly what `run_prompt_chainT` computes. -/

/-- The stage-1 prompt of the run on query `q`. -/
def prompt1Of (q : String) : String := stage1_seg0 ++ q ++ stage1_seg1

/-- The stage-1 executor call of the run. -/
def call1Of (w : LLMWorld) (q : String) : String × Nat :=
  gemini_llm_call w 0 (prompt1Of q)

/-- The context after stage 1 completes. -/
def ctx1Of (w : LLMWorld) (q : String) : Ctx :=
  [("customer_query", q)] ++ [("stage_1_output", (call1Of w q).fst)]

/-- The stage-2 prompt of the run. -/
def prompt2Of (w : LLMWorld) (q : String) : String :=
  stage2_seg0 ++ AVAILABLE_CATEGORIES ++ stage2_seg1 ++ (call1Of w q).fst ++
    stage2_seg2

/-- The stage-2 executor call of the run. -/
def call2Of (w : LLMWorld) (q : String) : String × Nat :=
  gemini_llm_call w (call1Of w q).snd (prompt2Of w q)

/-- The context after stage 2 completes. -/
def ctx2Of (w : LLMWorld) (q : String) : Ctx :=
  ctx1Of w q ++ [("stage_2_output", (call2Of w q).fst)]

/-- The stage-3 prompt of the run. -/
def prompt3Of (w : LLMWorld) (q : String) : String :=
  stage3_seg0 ++ (call1Of w q).fst ++ stage3_seg1 ++ (call2Of w q).fst ++
    stage3_seg2

/-- The stage-3 executor call of the run. -/
def call3Of (w : LLMWorld) (q : String) : String × Nat :=
  gemini_llm_call w (call2Of w q).snd (prompt3Of w q)

/-- The context after stage 3 completes. -/
def ctx3Of (w : LLMWorld) (q : String) : Ctx :=
  ctx2Of w q ++ [("stage_3_output", (call3Of w q).fst)]

/-- The stage-4 prompt of the run. -/
def prompt4Of (w : LLMWorld) (q : String) : String :=
  stage4_seg0 ++ (call3Of w q).fst ++ stage4_seg1 ++ (call1Of w q).fst ++
    stage4_seg2

/-- The stage-4 executor call of the run. -/
def call4Of (w : LLMWorld) (q : String) : String × Nat :=
  gemini_llm_call w (call3Of w q).snd (prompt4Of w q)

/-- The context after stage 4 completes. -/
def ctx4Of (w : LLMWorld) (q : String) : Ctx :=
  ctx3Of w q ++ [("stage_4_output", (call4Of w q).fst)]

/-- The stage-5 prompt of the run. -/
def prompt5Of (w : LLMWorld) (q : String) : String :=
  stage5_seg0 ++ (call3Of w q).fst ++ stage5_seg1 ++ (call1Of w q).fst ++
    stage5_seg2 ++ (call4Of w q).fst ++ stage5_seg3

/-- The stage-5 executor call of the run. -/
def call5Of (w : LLMWorld) (q : String) : String × Nat :=
  gemini_llm_call w (call4Of w q).snd (prompt5Of w q)

/-- The full trace of the run, stage by stage.  After stage 5 the context is
still `ctx4Of` — the source never writes a `stage_5_output` key. -/
def chainTraceOf (w : LLMWorld) (q : String) : ChainTrace :=
  { results := [(call1Of w q).fst, (call2Of w q).fst, (call3Of w q).fst,
                (call4Of w q).fst, (call5Of w q).fst]
    prompts := [prompt1Of q, prompt2Of w q, prompt3Of w q, prompt4Of w q,
                prompt5Of w q]
    ctxs := [ctx1Of w q, ctx2Of w q, ctx3Of w q, ctx4Of w q, ctx4Of w q]
    calls := (call5Of w q).snd }

/-- The mock of the spec's end-to-end test: the client is constructed and
the five outbound calls return the fixed strings A, B, C, D, E in order,
whatever the prompts are. -/
def mockOutputs : List String := ["A", "B", "C", "D", "E"]

/-- The world in which the executor behaves as the spec's end-to-end mock. -/
def mockWorld : LLMWorld :=
  { clientSet := true
    respond := fun n _ => CallOutcome.success (some (mockOutputs.getD n "")) }

/-- A test double: client constructed, every call succeeds with text that
has surrounding whitespace. -/
def stubWorldClean : LLMWorld :=
  { clientSet := true
    respond := fun _ _ => CallOutcome.success (some "  hi  ") }

/-- A test double: client constructed, every call succeeds with
whitespace-only text. -/
def stubWorldBlank : LLMWorld :=
  { clientSet := true
    respond := fun _ _ => CallOutcome.success (some "   ") }

/-- A test double: the client handle was never constructed (`client is
None`); the service would answer, but must never be reached. -/
def stubWorldNoClient : LLMWorld :=
  { clientSet := false
    respond := fun _ _ => CallOutcome.success (some "never reached") }

/-- A test double: client constructed, every call raises an exception with
message "boom". -/
def stubWorldExc : LLMWorld :=
  { clientSet := true
    respond := fun _ _ => CallOutcome.exception "boom" }

/-- Context keys populated before the given stage begins: `customer_query`
from chain start, and `stage_j_output` for the stages `j` that completed
earlier. -/
def allowedKeys (stage : Int) : List String :=
  if stage = 1 then ["customer_query"]
  else if stage = 2 then ["customer_query", "stage_1_output"]
  else if stage = 3 then ["customer_query", "stage_1_output", "stage_2_output"]
  else if stage = 4 then
    ["customer_query", "stage_1_output", "stage_2_output", "stage_3_output"]
  else if stage = 5 then
    ["customer_query", "stage_1_output", "stage_2_output", "stage_3_output",
     "stage_4_output"]
  else []

/-- Substring containment: `sub` occurs verbatim inside `s`. -/
def strContains (s sub : String) : Prop := ∃ a b : String, s = a ++ sub ++ b

/-! Helper lemmas about strings and contexts. -/

/-- A string visibly of the shape `a ++ v ++ b` contains `v`. -/
theorem strContains_here (a v b : String) : strContains (a ++ v ++ b) v :=
  ⟨a, b, rfl⟩

/-- Containment is preserved by appending on the right. -/
theorem strContains_extend_right (t : String) {s v : String}
    (h : strContains s v) : strContains (s ++ t) v := by
  obtain ⟨a, b, rfl⟩ := h
  exact ⟨a, b ++ t, by rw [String.append_assoc (a ++ v) b t]⟩

/-- Containment is preserved by appending on the left. -/
theorem strContains_extend_left (t : String) {s v : String}
    (h : strContains s v) : strContains (t ++ s) v := by
  obtain ⟨a, b, rfl⟩ := h
  refine ⟨t ++ a, b, ?_⟩
  rw [String.append_assoc (t ++ a) v b, String.append_assoc t a (v ++ b),
    String.append_assoc a v b]

/-- Every string contains itself. -/
theorem strContains_self (s : String) : strContains s s :=
  ⟨"", "", by rw [String.append_empty, String.empty_append]⟩

/-- A string with a non-empty head segment is non-empty. -/
theorem append_ne_empty_left (a b : String) (h : a ≠ "") : a ++ b ≠ "" := by
  intro he
  apply h
  have hd : a.data ++ b.data = [] := by
    have h2 := congrArg String.data he
    rwa [String.data_append] at h2
  have ha : a.data = [] := (List.append_eq_nil.mp hd).1
  cases a with
  | mk d => simp only at ha; subst ha; rfl

/-- Dictionary lookups already present are preserved by appending entries. -/
theorem ctxLookup_append_some {c : Ctx} {k v : String} (l : Ctx)
    (h : ctxLookup c k = some v) : ctxLookup (c ++ l) k = some v := by
  induction c with
  | nil => simp [ctxLookup] at h
  | cons kv rest ih =>
      obtain ⟨k0, v0⟩ := kv
      by_cases hk : k0 = k
      · simp [ctxLookup, hk] at h ⊢
        exact h
      · simp [ctxLookup, hk] at h ⊢
        exact ih h

/-- The unfolded trace is exactly what the orchestrator computes. -/
theorem run_prompt_chainT_eq (w : LLMWorld) (q : String) :
    run_prompt_chainT w q = some (chainTraceOf w q) := rfl

/-- Executor behaviour when the client handle is `None`: the fixed sentinel,
and the outbound-call count is unchanged. -/
theorem gemini_llm_call_clientNone {w : LLMWorld} (n : Nat) (p : String)
    (hc : w.clientSet = false) : gemini_llm_call w n p = (clientNotSetMsg, n) := by
  unfold gemini_llm_call
  rw [hc]
  simp

/-- Executor behaviour when the call succeeds with text `t`. -/
theorem gemini_llm_call_success {w : LLMWorld} {n : Nat} {p t : String}
    (hc : w.clientSet = true)
    (hr : w.respond n p = CallOutcome.success (some t)) :
    gemini_llm_call w n p =
      if t ≠ "" ∧ pyStrip t ≠ "" then (pyStrip t, n + 1)
      else (emptyResponseMsg, n + 1) := by
  unfold gemini_llm_call
  rw [hc, hr]
  simp

/-- Executor behaviour when the call succeeds with text that is non-empty
and unchanged by stripping. -/
theorem gemini_llm_call_success_clean {w : LLMWorld} {n : Nat} {p t : String}
    (hc : w.clientSet = true)
    (hr : w.respond n p = CallOutcome.success (some t))
    (h1 : t ≠ "") (h2 : pyStrip t = t) :
    gemini_llm_call w n p = (t, n + 1) := by
  rw [gemini_llm_call_success hc hr, h2, if_pos ⟨h1, h1⟩]

/-- Executor behaviour when the call raises an exception. -/
theorem gemini_llm_call_exc {w : LLMWorld} {n : Nat} {p msg : String}
    (hc : w.clientSet = true)
    (hr : w.respond n p = CallOutcome.exception msg) :
    gemini_llm_call w n p = (llmExceptionHead ++ msg, n + 1) := by
  unfold gemini_llm_call
  rw [hc, hr]
  rfl

/-- Executor behaviour when the call succeeds but `.text` is `None`. -/
theorem gemini_llm_call_textNone {w : LLMWorld} {n : Nat} {p : String}
    (hc : w.clientSet = true)
    (hr : w.respond n p = CallOutcome.success none) :
    gemini_llm_call w n p = (emptyResponseMsg, n + 1) := by
  unfold gemini_llm_call
  rw [hc, hr]
  rfl

/-- The executor never returns the empty string, whatever the outcome. -/
theorem gemini_llm_call_fst_ne_empty (w : LLMWorld) (n : Nat) (p : String) :
    (gemini_llm_call w n p).fst ≠ "" := by
  by_cases hc : w.clientSet = false
  · rw [gemini_llm_call_clientNone n p hc]
    exact (by decide : clientNotSetMsg ≠ "")
  · have hc' : w.clientSet = true := by
      cases h : w.clientSet
      · exact absurd h hc
      · rfl
    cases hr : w.respond n p with
    | success text =>
        cases text with
        | some t =>
            rw [gemini_llm_call_success hc' hr]
            by_cases hcond : t ≠ "" ∧ pyStrip t ≠ ""
            · rw [if_pos hcond]
              exact hcond.2
            · rw [if_neg hcond]
              exact (by decide : emptyResponseMsg ≠ "")
        | none =>
            rw [gemini_llm_call_textNone hc' hr]
            exact (by decide : emptyResponseMsg ≠ "")
    | exception msg =>
        rw [gemini_llm_call_exc hc' hr]
        exact append_ne_empty_left llmExceptionHead msg (by decide)

/-- C6: when the call succeeds and yields text, the executor returns the
text stripped of surrounding whitespace if that is non-empty, and the fixed
empty-response sentinel if the text is empty or whitespace-only.  (The
second component of the returned pair records that the outbound call was
made.) -/
theorem executor_success_trims_or_sentinel (w : LLMWorld) (n : Nat)
    (p t : String) (hc : w.clientSet = true)
    (hr : w.respond n p = CallOutcome.success (some t)) :
    (pyStrip t ≠ "" → gemini_llm_call w n p = (pyStrip t, n + 1)) ∧
    (pyStrip t = "" → gemini_llm_call w n p = (emptyResponseMsg, n + 1)) := by
  constructor
  · intro hs
    have ht : t ≠ "" := by
      intro he
      apply hs
      subst he
      rfl
    rw [gemini_llm_call_success hc hr, if_pos ⟨ht, hs⟩]
  · intro hs
    rw [gemini_llm_call_success hc hr, if_neg]
    intro hcond
    exact hcond.2 hs

/-- Witness for C6: on the double returning "  hi  " the executor yields
"hi"; on the double returning whitespace it yields the sentinel. -/
theorem executor_success_trims_or_sentinel_witness :
    gemini_llm_call stubWorldClean 0 "p" = ("hi", 0 + 1) ∧
    gemini_llm_call stubWorldBlank 0 "p" = (emptyResponseMsg, 0 + 1) :=
  ⟨(executor_success_trims_or_sentinel stubWorldClean 0 "p" "  hi  " rfl
      rfl).1 (by decide),
   (executor_success_trims_or_sentinel stubWorldBlank 0 "p" "   " rfl
      rfl).2 (by decide)⟩

/-- C7: when the call raises an exception, the executor catches it and
returns a string containing the exception's message; being a total Lean
function, it propagates nothing to the caller. -/
theorem executor_exception_to_string (w : LLMWorld) (n : Nat) (p msg : String)
    (hc : w.clientSet = true)
    (hr : w.respond n p = CallOutcome.exception msg) :
    gemini_llm_call w n p = (llmExceptionHead ++ msg, n + 1) ∧
    strContains (gemini_llm_call w n p).fst msg := by
  have he := gemini_llm_call_exc hc hr
  refine ⟨he, ?_⟩
  rw [he]
  exact ⟨llmExceptionHead, "", by rw [String.append_empty]⟩

/-- Witness for C7: the exception message "boom" appears in the result. -/
theorem executor_exception_to_string_witness :
    gemini_llm_call stubWorldExc 0 "p" = (llmExceptionHead ++ "boom", 0 + 1) ∧
    strContains (gemini_llm_call stubWorldExc 0 "p").fst "boom" :=
  executor_exception_to_string stubWorldExc 0 "p" "boom" rfl rfl

/-- C8: when the client handle is unset the executor returns exactly the
fixed sentinel and the outbound-call count is unchanged — no outbound call
is performed, whatever `respond` would have answered. -/
theorem executor_skips_call_when_client_unset (w : LLMWorld) (n : Nat)
    (p : String) (hc : w.clientSet = false) :
    gemini_llm_call w n p = (clientNotSetMsg, n) :=
  gemini_llm_call_clientNone n p hc

/-- Witness for C8: with the client unset, the count stays at 7. -/
theorem executor_skips_call_when_client_unset_witness :
    gemini_llm_call stubWorldNoClient 7 "p" = (clientNotSetMsg, 7) :=
  executor_skips_call_when_client_unset stubWorldNoClient 7 "p" rfl

/-- C9: for every stage number outside 1–5 and every context, the builder
returns exactly the fixed literal "Error: Invalid stage number.". -/
theorem builder_invalid_stage_literal (stage : Int) (context : Ctx)
    (h : stage < 1 ∨ 5 < stage) :
    get_prompt_text stage context = some "Error: Invalid stage number." := by
  unfold get_prompt_text
  have h1 : ¬ (stage = 1) := by omega
  have h2 : ¬ (stage = 2) := by omega
  have h3 : ¬ (stage = 3) := by omega
  have h4 : ¬ (stage = 4) := by omega
  have h5 : ¬ (stage = 5) := by omega
  simp only [if_neg h1, if_neg h2, if_neg h3, if_neg h4, if_neg h5]
  rfl

/-- C2: for every query and every model of the executor — in particular any
model in which stage 2's call returns an error sentinel — the chain builds
all five prompts (stages 3, 4 and 5 included), invokes the executor five
times, returns a list of exactly five results, and always completes
(reaches Done, i.e. returns `some`). -/
theorem chain_always_completes_with_five_results (w : LLMWorld) (q : String) :
    ∃ t, run_prompt_chainT w q = some t ∧
      run_prompt_chain w q = some t.results ∧
      t.results.length = 5 ∧
      t.prompts = [prompt1Of q, prompt2Of w q, prompt3Of w q, prompt4Of w q,
        prompt5Of w q] ∧
      t.prompts.length = 5 :=
  ⟨chainTraceOf w q, rfl, rfl, rfl, rfl, rfl⟩

/-- Counterexample for C3: in the mocked run, after stage 5 the context has
no `stage_5_output` key, still has only 5 keys, and is exactly the context
after stage 4 — stage 5 appends its result to the output list but writes
nothing into the context, contradicting the claim for i = 5. -/
theorem stage5_writes_no_context_key :
    run_prompt_chain mockWorld "Q" = some ["A", "B", "C", "D", "E"] ∧
    ((run_prompt_chainT mockWorld "Q").map fun t =>
        ctxLookup (t.ctxs.getD 4 []) "stage_5_output") = some none ∧
    ((run_prompt_chainT mockWorld "Q").map fun t =>
        (t.ctxs.getD 4 []).length) = some 5 ∧
    ((run_prompt_chainT mockWorld "Q").map fun t => t.ctxs.getD 4 []) =
      ((run_prompt_chainT mockWorld "Q").map fun t => t.ctxs.getD 3 []) :=
  ⟨rfl, rfl, rfl, rfl⟩

/-- C3 as amended: after each of stages 1–4 the orchestrator has appended
the stage result to the output list and written it into the context under
`stage_i_output`, growing the context by exactly one key; stage 5 appends
its result to the output list only, leaving the context unchanged. -/
theorem stage_results_recorded (w : LLMWorld) (q : String) :
    ∃ t, run_prompt_chainT w q = some t ∧
      t.results = [(call1Of w q).fst, (call2Of w q).fst, (call3Of w q).fst,
        (call4Of w q).fst, (call5Of w q).fst] ∧
      t.ctxs = [ctx1Of w q, ctx2Of w q, ctx3Of w q, ctx4Of w q, ctx4Of w q] ∧
      ctx1Of w q = [("customer_query", q)] ++
        [("stage_1_output", (call1Of w q).fst)] ∧
      ctx2Of w q = ctx1Of w q ++ [("stage_2_output", (call2Of w q).fst)] ∧
      ctx3Of w q = ctx2Of w q ++ [("stage_3_output", (call3Of w q).fst)] ∧
      ctx4Of w q = ctx3Of w q ++ [("stage_4_output", (call4Of w q).fst)] ∧
      ctxLookup (ctx1Of w q) "stage_1_output" = some (call1Of w q).fst ∧
      ctxLookup (ctx2Of w q) "stage_2_output" = some (call2Of w q).fst ∧
      ctxLookup (ctx3Of w q) "stage_3_output" = some (call3Of w q).fst ∧
      ctxLookup (ctx4Of w q) "stage_4_output" = some (call4Of w q).fst ∧
      ([("customer_query", q)] : Ctx).length + 1 = (ctx1Of w q).length ∧
      (ctx1Of w q).length + 1 = (ctx2Of w q).length ∧
      (ctx2Of w q).length + 1 = (ctx3Of w q).length ∧
      (ctx3Of w q).length + 1 = (ctx4Of w q).length :=
  ⟨chainTraceOf w q, rfl, rfl, rfl, rfl, rfl, rfl, rfl, rfl, rfl, rfl, rfl,
   rfl, rfl, rfl, rfl⟩

/-- C10: the executor never returns the empty string, so every element of
the chain's five-element result list is a non-empty string. -/
theorem all_results_nonempty :
    (∀ (w : LLMWorld) (n : Nat) (p : String),
      (gemini_llm_call w n p).fst ≠ "") ∧
    (∀ (w : LLMWorld) (q : String) (rs : List String),
      run_prompt_chain w q = some rs →
      rs.length = 5 ∧ ∀ r ∈ rs, r ≠ "") := by
  refine ⟨gemini_llm_call_fst_ne_empty, ?_⟩
  intro w q rs h
  have h3 : some rs = some (chainTraceOf w q).results := h.symm.trans rfl
  have hrs := Option.some.inj h3
  subst hrs
  refine ⟨rfl, ?_⟩
  intro r hr
  simp only [chainTraceOf, List.mem_cons, List.not_mem_nil, or_false] at hr
  rcases hr with rfl | rfl | rfl | rfl | rfl
  · exact gemini_llm_call_fst_ne_empty w 0 (prompt1Of q)
  · exact gemini_llm_call_fst_ne_empty w (call1Of w q).snd (prompt2Of w q)
  · exact gemini_llm_call_fst_ne_empty w (call2Of w q).snd (prompt3Of w q)
  · exact gemini_llm_call_fst_ne_empty w (call3Of w q).snd (prompt4Of w q)
  · exact gemini_llm_call_fst_ne_empty w (call4Of w q).snd (prompt5Of w q)

/-- Witness for C10: the mocked run's five results are all non-empty, and a
concrete executor result is non-empty. -/
theorem all_results_nonempty_witness :
    ((gemini_llm_call stubWorldExc 0 "p").fst ≠ "") ∧
    ((["A", "B", "C", "D", "E"] : List String).length = 5 ∧
      ∀ r ∈ (["A", "B", "C", "D", "E"] : List String), r ≠ "") :=
  ⟨all_results_nonempty.1 stubWorldExc 0 "p",
   all_results_nonempty.2 mockWorld "Q" ["A", "B", "C", "D", "E"] rfl⟩

/-- C1: in every executor model whose five calls return "A", "B", "C", "D",
"E" in order, the chain returns exactly that list, and the context is
threaded correctly: the stage-2 prompt contains "A", the stage-3 prompt
contains "A" and "B", the stage-4 prompt contains "A" and "C", and the
stage-5 prompt contains "A", "C" and "D". -/
theorem chain_mock_threads_context (w : LLMWorld) (q : String)
    (hc : w.clientSet = true)
    (hr : ∀ n p, n < 5 →
      w.respond n p = CallOutcome.success (some (mockOutputs.getD n ""))) :
    run_prompt_chain w q = some ["A", "B", "C", "D", "E"] ∧
    ∃ t, run_prompt_chainT w q = some t ∧
      t.prompts = [prompt1Of q, prompt2Of w q, prompt3Of w q, prompt4Of w q,
        prompt5Of w q] ∧
      strContains (prompt2Of w q) "A" ∧
      strContains (prompt3Of w q) "A" ∧ strContains (prompt3Of w q) "B" ∧
      strContains (prompt4Of w q) "A" ∧ strContains (prompt4Of w q) "C" ∧
      strContains (prompt5Of w q) "A" ∧ strContains (prompt5Of w q) "C" ∧
      strContains (prompt5Of w q) "D" := by
  have h1 : call1Of w q = ("A", 1) :=
    gemini_llm_call_success_clean hc (hr 0 (prompt1Of q) (by norm_num))
      (by decide) (by decide)
  have h2 : call2Of w q = ("B", 2) := by
    show gemini_llm_call w (call1Of w q).snd (prompt2Of w q) = ("B", 2)
    rw [h1]
    exact gemini_llm_call_success_clean hc (hr 1 (prompt2Of w q) (by norm_num))
      (by decide) (by decide)
  have h3 : call3Of w q = ("C", 3) := by
    show gemini_llm_call w (call2Of w q).snd (prompt3Of w q) = ("C", 3)
    rw [h2]
    exact gemini_llm_call_success_clean hc (hr 2 (prompt3Of w q) (by norm_num))
      (by decide) (by decide)
  have h4 : call4Of w q = ("D", 4) := by
    show gemini_llm_call w (call3Of w q).snd (prompt4Of w q) = ("D", 4)
    rw [h3]
    exact gemini_llm_call_success_clean hc (hr 3 (prompt4Of w q) (by norm_num))
      (by decide) (by decide)
  have h5 : call5Of w q = ("E", 5) := by
    show gemini_llm_call w (call4Of w q).snd (prompt5Of w q) = ("E", 5)
    rw [h4]
    exact gemini_llm_call_success_clean hc (hr 4 (prompt5Of w q) (by norm_num))
      (by decide) (by decide)
  refine ⟨?_, chainTraceOf w q, rfl, rfl, ?_, ?_, ?_, ?_, ?_, ?_, ?_, ?_⟩
  · have hres : run_prompt_chain w q = some [(call1Of w q).fst,
        (call2Of w q).fst, (call3Of w q).fst, (call4Of w q).fst,
        (call5Of w q).fst] := rfl
    rw [hres, h1, h2, h3, h4, h5]
  · simp only [prompt2Of, h1]
    exact strContains_here (stage2_seg0 ++ AVAILABLE_CATEGORIES ++ stage2_seg1)
      "A" stage2_seg2
  · simp only [prompt3Of, h1, h2]
    exact strContains_extend_right stage3_seg2
      (strContains_extend_right "B"
        (strContains_here stage3_seg0 "A" stage3_seg1))
  · simp only [prompt3Of, h1, h2]
    exact strContains_here (stage3_seg0 ++ "A" ++ stage3_seg1) "B" stage3_seg2
  · simp only [prompt4Of, h1, h3]
    exact strContains_here (stage4_seg0 ++ "C" ++ stage4_seg1) "A" stage4_seg2
  · simp only [prompt4Of, h1, h3]
    exact strContains_extend_right stage4_seg2
      (strContains_extend_right "A"
        (strContains_here stage4_seg0 "C" stage4_seg1))
  · simp only [prompt5Of, h1, h3, h4]
    exact strContains_extend_right stage5_seg3
      (strContains_extend_right "D"
        (strContains_here (stage5_seg0 ++ "C" ++ stage5_seg1) "A" stage5_seg2))
  · simp only [prompt5Of, h1, h3, h4]
    exact strContains_extend_right stage5_seg3
      (strContains_extend_right "D"
        (strContains_extend_right stage5_seg2
          (strContains_extend_right "A"
            (strContains_here stage5_seg0 "C" stage5_seg1))))
  · simp only [prompt5Of, h1, h3, h4]
    exact strContains_here
      (stage5_seg0 ++ "C" ++ stage5_seg1 ++ "A" ++ stage5_seg2) "D" stage5_seg3

/-- Witness for C1: the mock world realizes the hypotheses, and the mocked
run returns ["A","B","C","D","E"] with the stated prompt containments. -/
theorem chain_mock_threads_context_witness :
    run_prompt_chain mockWorld "Q" = some ["A", "B", "C", "D", "E"] ∧
    ∃ t, run_prompt_chainT mockWorld "Q" = some t ∧
      t.prompts = [prompt1Of "Q", prompt2Of mockWorld "Q",
        prompt3Of mockWorld "Q", prompt4Of mockWorld "Q",
        prompt5Of mockWorld "Q"] ∧
      strContains (prompt2Of mockWorld "Q") "A" ∧
      strContains (prompt3Of mockWorld "Q") "A" ∧
      strContains (prompt3Of mockWorld "Q") "B" ∧
      strContains (prompt4Of mockWorld "Q") "A" ∧
      strContains (prompt4Of mockWorld "Q") "C" ∧
      strContains (prompt5Of mockWorld "Q") "A" ∧
      strContains (prompt5Of mockWorld "Q") "C" ∧
      strContains (prompt5Of mockWorld "Q") "D" :=
  chain_mock_threads_context mockWorld "Q" rfl (fun _ _ _ => rfl)

/-- C4: within one run the context is monotonically append-only — each
stage's context extends the previous one by a single fresh entry, so every
binding present earlier is still present, unchanged, later — and the prompt
built for a stage depends only on context keys populated before that stage
begins: two contexts that agree on those keys give the same prompt. -/
theorem context_append_only_and_stage_frame :
    (∀ (w : LLMWorld) (q : String),
      ∃ t, run_prompt_chainT w q = some t ∧
        t.ctxs = [ctx1Of w q, ctx2Of w q, ctx3Of w q, ctx4Of w q,
          ctx4Of w q] ∧
        ctx2Of w q = ctx1Of w q ++ [("stage_2_output", (call2Of w q).fst)] ∧
        ctx3Of w q = ctx2Of w q ++ [("stage_3_output", (call3Of w q).fst)] ∧
        ctx4Of w q = ctx3Of w q ++ [("stage_4_output", (call4Of w q).fst)] ∧
        (∀ k v, ctxLookup [("customer_query", q)] k = some v →
          ctxLookup (ctx1Of w q) k = some v) ∧
        (∀ k v, ctxLookup (ctx1Of w q) k = some v →
          ctxLookup (ctx2Of w q) k = some v) ∧
        (∀ k v, ctxLookup (ctx2Of w q) k = some v →
          ctxLookup (ctx3Of w q) k = some v) ∧
        (∀ k v, ctxLookup (ctx3Of w q) k = some v →
          ctxLookup (ctx4Of w q) k = some v)) ∧
    (∀ stage : Int, 1 ≤ stage → stage ≤ 5 → ∀ c c' : Ctx,
      (∀ k, k ∈ allowedKeys stage → ctxLookup c k = ctxLookup c' k) →
      get_prompt_text stage c = get_prompt_text stage c') := by
  constructor
  · intro w q
    refine ⟨chainTraceOf w q, rfl, rfl, rfl, rfl, rfl, ?_, ?_, ?_, ?_⟩
    · intro k v h
      exact ctxLookup_append_some [("stage_1_output", (call1Of w q).fst)] h
    · intro k v h
      exact ctxLookup_append_some [("stage_2_output", (call2Of w q).fst)] h
    · intro k v h
      exact ctxLookup_append_some [("stage_3_output", (call3Of w q).fst)] h
    · intro k v h
      exact ctxLookup_append_some [("stage_4_output", (call4Of w q).fst)] h
  · intro stage hl hh c c' hag
    interval_cases stage
    · norm_num only [get_prompt_text]
      simp only [if_true, if_false]
      rw [hag "customer_query" (by decide)]
    · norm_num only [get_prompt_text]
      simp only [if_true, if_false]
      rw [hag "stage_1_output" (by decide)]
    · norm_num only [get_prompt_text]
      simp only [if_true, if_false]
      rw [hag "stage_1_output" (by decide), hag "stage_2_output" (by decide)]
    · norm_num only [get_prompt_text]
      simp only [if_true, if_false]
      rw [hag "stage_3_output" (by decide), hag "stage_1_output" (by decide)]
    · norm_num only [get_prompt_text]
      simp only [if_true, if_false]
      rw [hag "stage_3_output" (by decide), hag "stage_1_output" (by decide),
        hag "stage_4_output" (by decide)]

/-- Witness for C4: the append-only part instantiated at the mock run, and
the frame part applied to two concrete contexts that agree on stage 1's
allowed keys but differ elsewhere. -/
theorem context_append_only_and_stage_frame_witness :
    (∃ t, run_prompt_chainT mockWorld "Q" = some t ∧
      t.ctxs = [ctx1Of mockWorld "Q", ctx2Of mockWorld "Q",
        ctx3Of mockWorld "Q", ctx4Of mockWorld "Q", ctx4Of mockWorld "Q"] ∧
      ctx2Of mockWorld "Q" = ctx1Of mockWorld "Q" ++
        [("stage_2_output", (call2Of mockWorld "Q").fst)] ∧
      ctx3Of mockWorld "Q" = ctx2Of mockWorld "Q" ++
        [("stage_3_output", (call3Of mockWorld "Q").fst)] ∧
      ctx4Of mockWorld "Q" = ctx3Of mockWorld "Q" ++
        [("stage_4_output", (call4Of mockWorld "Q").fst)] ∧
      (∀ k v, ctxLookup [("customer_query", "Q")] k = some v →
        ctxLookup (ctx1Of mockWorld "Q") k = some v) ∧
      (∀ k v, ctxLookup (ctx1Of mockWorld "Q") k = some v →
        ctxLookup (ctx2Of mockWorld "Q") k = some v) ∧
      (∀ k v, ctxLookup (ctx2Of mockWorld "Q") k = some v →
        ctxLookup (ctx3Of mockWorld "Q") k = some v) ∧
      (∀ k v, ctxLookup (ctx3Of mockWorld "Q") k = some v →
        ctxLookup (ctx4Of mockWorld "Q") k = some v)) ∧
    get_prompt_text 1 [("customer_query", "Q")] =
      get_prompt_text 1 [("customer_query", "Q"), ("stage_1_output", "zzz")] :=
  ⟨context_append_only_and_stage_frame.1 mockWorld "Q",
   context_append_only_and_stage_frame.2 1 (by norm_num) (by norm_num)
     [("customer_query", "Q")]
     [("customer_query", "Q"), ("stage_1_output", "zzz")] (by decide)⟩

/-- C5: for each stage 1–5, on any context holding that stage's required
keys the builder returns a non-empty prompt containing every required
context value verbatim as a substring. -/
theorem builder_embeds_required_context :
    (∀ (c : Ctx) (cq : String), ctxLookup c "customer_query" = some cq →
      ∃ p, get_prompt_text 1 c = some p ∧ p ≠ "" ∧ strContains p cq) ∧
    (∀ (c : Ctx) (s1 : String), ctxLookup c "stage_1_output" = some s1 →
      ∃ p, get_prompt_text 2 c = some p ∧ p ≠ "" ∧ strContains p s1) ∧
    (∀ (c : Ctx) (s1 s2 : String), ctxLookup c "stage_1_output" = some s1 →
      ctxLookup c "stage_2_output" = some s2 →
      ∃ p, get_prompt_text 3 c = some p ∧ p ≠ "" ∧
        strContains p s1 ∧ strContains p s2) ∧
    (∀ (c : Ctx) (s1 s3 : String), ctxLookup c "stage_1_output" = some s1 →
      ctxLookup c "stage_3_output" = some s3 →
      ∃ p, get_prompt_text 4 c = some p ∧ p ≠ "" ∧
        strContains p s1 ∧ strContains p s3) ∧
    (∀ (c : Ctx) (s1 s3 s4 : String), ctxLookup c "stage_1_output" = some s1 →
      ctxLookup c "stage_3_output" = some s3 →
      ctxLookup c "stage_4_output" = some s4 →
      ∃ p, get_prompt_text 5 c = some p ∧ p ≠ "" ∧
        strContains p s1 ∧ strContains p s3 ∧ strContains p s4) := by
  refine ⟨?_, ?_, ?_, ?_, ?_⟩
  · intro c cq h
    refine ⟨stage1_seg0 ++ cq ++ stage1_seg1, ?_, ?_, ?_⟩
    · simp [get_prompt_text, h]
    · exact append_ne_empty_left _ _ (append_ne_empty_left _ _ (by decide))
    · exact strContains_here stage1_seg0 cq stage1_seg1
  · intro c s1 h
    refine ⟨stage2_seg0 ++ AVAILABLE_CATEGORIES ++ stage2_seg1 ++ s1 ++
      stage2_seg2, ?_, ?_, ?_⟩
    · simp [get_prompt_text, h]
    · exact append_ne_empty_left _ _ (append_ne_empty_left _ _
        (append_ne_empty_left _ _ (append_ne_empty_left _ _ (by decide))))
    · exact strContains_here (stage2_seg0 ++ AVAILABLE_CATEGORIES ++
        stage2_seg1) s1 stage2_seg2
  · intro c s1 s2 h1 h2
    refine ⟨stage3_seg0 ++ s1 ++ stage3_seg1 ++ s2 ++ stage3_seg2,
      ?_, ?_, ?_, ?_⟩
    · simp [get_prompt_text, h1, h2]
    · exact append_ne_empty_left _ _ (append_ne_empty_left _ _
        (append_ne_empty_left _ _ (append_ne_empty_left _ _ (by decide))))
    · exact strContains_extend_right stage3_seg2
        (strContains_extend_right s2
          (strContains_here stage3_seg0 s1 stage3_seg1))
    · exact strContains_here (stage3_seg0 ++ s1 ++ stage3_seg1) s2 stage3_seg2
  · intro c s1 s3 h1 h3
    refine ⟨stage4_seg0 ++ s3 ++ stage4_seg1 ++ s1 ++ stage4_seg2,
      ?_, ?_, ?_, ?_⟩
    · simp [get_prompt_text, h1, h3]
    · exact append_ne_empty_left _ _ (append_ne_empty_left _ _
        (append_ne_empty_left _ _ (append_ne_empty_left _ _ (by decide))))
    · exact strContains_here (stage4_seg0 ++ s3 ++ stage4_seg1) s1 stage4_seg2
    · exact strContains_extend_right stage4_seg2
        (strContains_extend_right s1
          (strContains_here stage4_seg0 s3 stage4_seg1))
  · intro c s1 s3 s4 h1 h3 h4
    refine ⟨stage5_seg0 ++ s3 ++ stage5_seg1 ++ s1 ++ stage5_seg2 ++ s4 ++
      stage5_seg3, ?_, ?_, ?_, ?_, ?_⟩
    · simp [get_prompt_text, h1, h3, h4]
    · exact append_ne_empty_left _ _ (append_ne_empty_left _ _
        (append_ne_empty_left _ _ (append_ne_empty_left _ _
          (append_ne_empty_left _ _ (append_ne_empty_left _ _ (by decide))))))
    · exact strContains_extend_right stage5_seg3
        (strContains_extend_right s4
          (strContains_here (stage5_seg0 ++ s3 ++ stage5_seg1) s1
            stage5_seg2))
    · exact strContains_extend_right stage5_seg3
        (strContains_extend_right s4
          (strContains_extend_right stage5_seg2
            (strContains_extend_right s1
              (strContains_here stage5_seg0 s3 stage5_seg1))))
    · exact strContains_here (stage5_seg0 ++ s3 ++ stage5_seg1 ++ s1 ++
        stage5_seg2) s4 stage5_seg3

/-- Witness for C5: each stage's statement applied to a small concrete
context holding exactly the required keys. -/
theorem builder_embeds_required_context_witness :
    (∃ p, get_prompt_text 1 [("customer_query", "Q")] = some p ∧ p ≠ "" ∧
      strContains p "Q") ∧
    (∃ p, get_prompt_text 2 [("stage_1_output", "one")] = some p ∧ p ≠ "" ∧
      strContains p "one") ∧
    (∃ p, get_prompt_text 3
        [("stage_1_output", "one"), ("stage_2_output", "two")] = some p ∧
      p ≠ "" ∧ strContains p "one" ∧ strContains p "two") ∧
    (∃ p, get_prompt_text 4
        [("stage_1_output", "one"), ("stage_3_output", "three"),
         ("stage_4_output", "four")] = some p ∧
      p ≠ "" ∧ strContains p "one" ∧ strContains p "three") ∧
    (∃ p, get_prompt_text 5
        [("stage_1_output", "one"), ("stage_3_output", "three"),
         ("stage_4_output", "four")] = some p ∧
      p ≠ "" ∧ strContains p "one" ∧ strContains p "three" ∧
      strContains p "four") :=
  ⟨builder_embeds_required_context.1 [("customer_query", "Q")] "Q" rfl,
   builder_embeds_required_context.2.1 [("stage_1_output", "one")] "one" rfl,
   builder_embeds_required_context.2.2.1
     [("stage_1_output", "one"), ("stage_2_output", "two")] "one" "two"
     rfl rfl,
   builder_embeds_required_context.2.2.2.1
     [("stage_1_output", "one"), ("stage_3_output", "three"),
      ("stage_4_output", "four")] "one" "three" rfl rfl,
   builder_embeds_required_context.2.2.2.2
     [("stage_1_output", "one"), ("stage_3_output", "three"),
      ("stage_4_output", "four")] "one" "three" "four" rfl rfl rfl⟩

/-- Witness for C9: stages 0 and 6 both give the error literal. -/
theorem builder_invalid_stage_literal_witness :
    get_prompt_text 0 [] = some "Error: Invalid stage number." ∧
    get_prompt_text 6 [("customer_query", "Q")] =
      some "Error: Invalid stage number." :=
  ⟨builder_invalid_stage_literal 0 [] (Or.inl (by norm_num)),
   builder_invalid_stage_literal 6 [("customer_query", "Q")]
     (Or.inr (by norm_num))⟩

end PromptChain
